import Mathlib

/-!
Verification of the beatlink-backend identification pipeline.

Shallow embedding of the four services of the repository:
`services/youtube_service.py` (video-id extraction, audio acquisition),
`services/acrcloud_service.py` (fingerprint matching and confidence
filtering), `services/spotify_service.py` (token cache and catalog
enrichment) and `app.py` (the `/scan` handler).  External HTTP calls,
the filesystem and the clock are modelled by explicit outcome values
threaded through the functions; each Lean function mirrors the
control flow of the corresponding Python function.
-/

/-! ## Generic helpers -/

/-- Python `', '.join(names)`. -/
def joinComma : List String → String
  | [] => ""
  | [s] => s
  | s :: rest => s ++ ", " ++ joinComma rest

/-- Dictionary lookup, modelling `key in d` / `d[key]` on a JSON object. -/
def lookupAssoc (k : String) : List (String × String) → Option String
  | [] => none
  | (k2, v) :: rest => if k2 = k then some v else lookupAssoc k rest

/-! ## `youtube_service._extract_video_id` (lines 41-52)

The three regular expressions
`(?:v=|\/)([0-9A-Za-z_-]{11})`, `youtu\.be\/([0-9A-Za-z_-]{11})` and
`^([0-9A-Za-z_-]{11})$` are embedded as leftmost-search functions on
`List Char`, tried in order with first match winning. -/

/-- Character class `[0-9A-Za-z_-]`. -/
def isIdChar (c : Char) : Bool :=
  c.isDigit || c.isUpper || c.isLower || c == '_' || c == '-'

/-- Capture group `([0-9A-Za-z_-]{11})` at the current position:
succeeds iff the next 11 characters exist and are all id characters. -/
def takeId11 (l : List Char) : Option (List Char) :=
  if (l.take 11).all isIdChar && (l.take 11).length == 11 then some (l.take 11) else none

/-- Leftmost search for `(?:v=|\/)([0-9A-Za-z_-]{11})`.  At each
position the alternation tries the literal `v=` and then `/`; on a
failed capture the search resumes at the next position. -/
def searchP1 : List Char → Option (List Char)
  | [] => none
  | c :: rest =>
    if c == 'v' && rest.head? == some '=' then
      match takeId11 rest.tail with
      | some g => some g
      | none => searchP1 rest
    else if c == '/' then
      match takeId11 rest with
      | some g => some g
      | none => searchP1 rest
    else searchP1 rest

/-- The literal `youtu.be/` of the second pattern. -/
def shortLinkPat : List Char := ['y', 'o', 'u', 't', 'u', '.', 'b', 'e', '/']

/-- Leftmost search for `youtu\.be\/([0-9A-Za-z_-]{11})`. -/
def searchP2 : List Char → Option (List Char)
  | [] => none
  | c :: rest =>
    if shortLinkPat.isPrefixOf (c :: rest) then
      match takeId11 ((c :: rest).drop 9) with
      | some g => some g
      | none => searchP2 rest
    else searchP2 rest

/-- Anchored pattern `^([0-9A-Za-z_-]{11})$`. -/
def matchP3 (l : List Char) : Option (List Char) :=
  if l.all isIdChar && l.length == 11 then some l else none

/-- `_extract_video_id`: the three patterns are tried in order and the
first match wins; `none` models the Python `return None`. -/
def extract_video_id (url : List Char) : Option (List Char) :=
  match searchP1 url with
  | some g => some g
  | none =>
    match searchP2 url with
    | some g => some g
    | none => matchP3 url

/-- The canonical watch-URL shape `https://www.youtube.com/watch?v=` to
which an 11-character id is appended. -/
def watchMarker : List Char :=
  ['h', 't', 't', 'p', 's', ':', '/', '/', 'w', 'w', 'w', '.', 'y', 'o', 'u', 't', 'u',
   'b', 'e', '.', 'c', 'o', 'm', '/', 'w', 'a', 't', 'c', 'h', '?', 'v', '=']

/-- The canonical short-link shape `https://youtu.be/`. -/
def shortMarker : List Char :=
  ['h', 't', 't', 'p', 's', ':', '/', '/', 'y', 'o', 'u', 't', 'u', '.', 'b', 'e', '/']

/-! ## `acrcloud_service.identify_audio` (lines 35-163) -/

/-- One entry of the `metadata.music` list of an ACR Cloud response.
Every field is optional because the Python code reads each with
`.get` and a default; the nested
`external_metadata.spotify.track.id` chain collapses to one optional
value (`none` whenever any level is missing). -/
structure AcrMusic where
  score : Option Int
  title : Option String
  artistNames : Option (List (Option String))
  spotifyId : Option (List Char)
  deriving DecidableEq

/-- `music.get('score', 0)`. -/
def scoreOf (m : AcrMusic) : Int := m.score.getD 0

/-- A formatted match as built in `identify_audio` lines 144-149. -/
structure SongMatch where
  title : String
  artists : String
  spotify_id : List Char
  score : Int
  deriving DecidableEq

/-- The literal `spotify:track:` used at acrcloud line 147 and tested
at spotify line 79. -/
def spotifyTrackMarker : List Char :=
  ['s', 'p', 'o', 't', 'i', 'f', 'y', ':', 't', 'r', 'a', 'c', 'k', ':']

/-- `f"spotify:track:{spotify_id}" if spotify_id else ''`
(acrcloud line 147). -/
def format_spotify_id (sid : List Char) : List Char :=
  if sid = [] then [] else spotifyTrackMarker ++ sid

/-- Formatting of one accepted candidate (acrcloud lines 134-149). -/
def formatMatch (m : AcrMusic) : SongMatch where
  title := m.title.getD "Unknown"
  artists := joinComma ((m.artistNames.getD []).map (fun a => a.getD "Unknown"))
  spotify_id := format_spotify_id (m.spotifyId.getD [])
  score := m.score.getD 0

/-- The filtering loop of acrcloud lines 127-151: candidates with
`score < 85` are skipped via `continue`, the others are formatted and
appended in order. -/
def collectMatches : List AcrMusic → List SongMatch
  | [] => []
  | m :: rest =>
    if scoreOf m < 85 then collectMatches rest
    else formatMatch m :: collectMatches rest

/-- `result.get('status', {})` with its optional `code` field. -/
structure AcrStatus where
  code : Option Int
  deriving DecidableEq

/-- A parsed ACR Cloud JSON body; `music` collapses the
`metadata.music` chain (defaults `{}` then `[]`). -/
structure AcrBody where
  status : Option AcrStatus
  music : Option (List AcrMusic)
  deriving DecidableEq

/-- `status.get('code', -1)` after `result.get('status', {})`. -/
def statusCodeOf (b : AcrBody) : Int :=
  match b.status with
  | none => -1
  | some s => s.code.getD (-1)

/-- Outcome of the `requests.post` to the identification endpoint:
a timeout, another raised exception, or a transport response whose
body is `none` when `response.json()` raises. -/
inductive AcrNet
  | timeout
  | raised
  | response (status_code : Int) (body : Option AcrBody)
  deriving DecidableEq

/-- `identify_audio`:  missing file, timeout, raised exception,
non-200 transport status, malformed payload and nonzero service
status all yield `[]`; on status 0 the music list is filtered by
confidence. -/
def identify_audio (fileExists : Bool) (net : AcrNet) : List SongMatch :=
  if !fileExists then []
  else
    match net with
    | .timeout => []
    | .raised => []
    | .response status_code body =>
      if status_code ≠ 200 then []
      else
        match body with
        | none => []
        | some result =>
          if statusCodeOf result ≠ 0 then []
          else
            let music_list := result.music.getD []
            if music_list.isEmpty then []
            else collectMatches music_list

/-! ## `spotify_service` (token cache, track details, enrichment) -/

/-- The two module-level cache slots `self.token` / `self.token_expires_at`
(spotify lines 15-16); time is modelled as integer seconds. -/
structure TokenState where
  token : Option String
  token_expires_at : Int
  deriving DecidableEq

/-- Python truthiness of `self.token`: `None` and `''` are falsy. -/
def truthyTok : Option String → Bool
  | none => false
  | some t => !(t == "")

/-- Python falsiness of a returned token (`if not token`). -/
def tokenFalsy : Option String → Bool
  | none => true
  | some t => t == ""

/-- Body of a token response; `access_token` may be absent. -/
structure TokenBody where
  access_token : Option String
  expires_in : Option Int
  deriving DecidableEq

/-- Outcome of the `requests.post` to the auth endpoint. -/
inductive TokenNet
  | raised
  | response (status_code : Int) (body : Option TokenBody)
  deriving DecidableEq

/-- `_get_token` (spotify lines 23-61).  Returns the token (or
`none`), the new cache state, and whether a network exchange was
performed. -/
def get_token (st : TokenState) (now : Int) (net : TokenNet) :
    Option String × TokenState × Bool :=
  if truthyTok st.token && decide (now < st.token_expires_at) then (st.token, st, false)
  else
    match net with
    | .raised => (none, st, true)
    | .response status_code body =>
      if status_code ≠ 200 then (none, st, true)
      else
        match body with
        | none => (none, st, true)
        | some data =>
          let tok := data.access_token
          let expires_in := data.expires_in.getD 3600
          (tok, ⟨tok, now + expires_in - 60⟩, true)

/-- Python `s.split(':')` specialised to the `':'` separator. -/
def splitOnColon : List Char → List (List Char)
  | [] => [[]]
  | c :: rest =>
    if c = ':' then [] :: splitOnColon rest
    else
      match splitOnColon rest with
      | [] => [[c]]
      | g :: gs => (c :: g) :: gs

/-- Track-id extraction of `_get_track_details` lines 79-82:
`spotify_id.split(':')[2]` when the `spotify:track:` marker is a
leading part of the string, otherwise the input unchanged.  (The
marker guarantees at least three components, so the index is total.) -/
def extractTrackId (spotify_id : List Char) : List Char :=
  if spotifyTrackMarker.isPrefixOf spotify_id then (splitOnColon spotify_id).getD 2 []
  else spotify_id

/-- One entry of `album.images`. -/
structure SpotifyImage where
  height : Option Int
  url : Option String
  deriving DecidableEq

/-- `data.get('album', {})` with its optional fields. -/
structure AlbumInfo where
  images : Option (List SpotifyImage)
  label : Option String
  release_date : Option String
  deriving DecidableEq

/-- A parsed track-detail JSON body. -/
structure TrackBody where
  album : Option AlbumInfo
  deriving DecidableEq

/-- Outcome of the `requests.get` on the track-detail endpoint. -/
inductive TrackNet
  | raised
  | response (status_code : Int) (body : Option TrackBody)
  deriving DecidableEq

/-- Cover selection (spotify lines 107-116): the first image of
height 300 if it yields a non-empty url, else the first image, else
the empty string. -/
def pickCover (images : List SpotifyImage) : String :=
  if images.isEmpty then ""
  else
    let c :=
      match images.find? (fun img => img.height == some 300) with
      | some img => img.url.getD ""
      | none => ""
    if c = "" then ((images.headD ⟨none, none⟩).url).getD "" else c

/-- The success dictionary of `_get_track_details` (lines 127-132). -/
structure TrackDetails where
  spotify_url : String
  cover_url : String
  release_date : String
  label : String
  deriving DecidableEq

/-- `_get_track_details` (spotify lines 63-136).  Returns `none` for
the Python `{}` of every failure path, together with the token-cache
state after the embedded `_get_token` call.  `cnet` gives the
catalog response for a given track id. -/
def get_track_details (st : TokenState) (now : Int) (tnet : TokenNet)
    (cnet : List Char → TrackNet) (spotify_id : List Char) :
    Option TrackDetails × TokenState :=
  let track_id := extractTrackId spotify_id
  let r := get_token st now tnet
  if tokenFalsy r.1 then (none, r.2.1)
  else
    match cnet track_id with
    | .raised => (none, r.2.1)
    | .response status_code body =>
      if status_code ≠ 200 then (none, r.2.1)
      else
        match body with
        | none => (none, r.2.1)
        | some data =>
          let album := data.album.getD ⟨none, none, none⟩
          let images := album.images.getD []
          (some
            { spotify_url := "https://open.spotify.com/track/" ++ String.mk track_id
              cover_url := pickCover images
              release_date := album.release_date.getD ""
              label := album.label.getD "" }, r.2.1)

/-- One element of the list returned by `enrich_tracks`. -/
structure EnrichedTrack where
  title : String
  artists : String
  spotify_url : String
  cover_url : String
  release_date : String
  label : String
  score : Int
  deriving DecidableEq

/-- `enrich_tracks` (spotify lines 138-182).  A match without a
spotify id yields the basic record with empty catalog fields; a match
with an id is looked up, with `details.get(field, '')` modelled by
`Option.getD` over the `none` of a failed lookup.  The token-cache
state is threaded through the loop. -/
def enrich_tracks (tnet : TokenNet) (cnet : List Char → TrackNet) (now : Int) :
    TokenState → List SongMatch → List EnrichedTrack × TokenState
  | st, [] => ([], st)
  | st, m :: rest =>
    if m.spotify_id = [] then
      let tl := enrich_tracks tnet cnet now st rest
      (⟨m.title, m.artists, "", "", "", "", m.score⟩ :: tl.1, tl.2)
    else
      let dr := get_track_details st now tnet cnet m.spotify_id
      let d := dr.1.getD ⟨"", "", "", ""⟩
      let tl := enrich_tracks tnet cnet now dr.2 rest
      (⟨m.title, m.artists, d.spotify_url, d.cover_url, d.release_date, d.label, m.score⟩ ::
        tl.1, tl.2)

/-- Empty catalog fields, the degradation target of enrichment. -/
def emptyCatalog (e : EnrichedTrack) : Prop :=
  e.spotify_url = "" ∧ e.cover_url = "" ∧ e.release_date = "" ∧ e.label = ""

/-- Title, artist string and score carried over from the match. -/
def preservesMatch (m : SongMatch) (e : EnrichedTrack) : Prop :=
  e.title = m.title ∧ e.artists = m.artists ∧ e.score = m.score

/-- Failure of the catalog track-detail call: an exception or a
non-200 transport status. -/
def catalogFails : TrackNet → Prop
  | .raised => True
  | .response code _ => code ≠ 200

/-! ## `youtube_service.download_audio` (lines 149-321) -/

/-- The ordered candidate field names probed at lines 224-235. -/
def possible_fields : List String :=
  ["downloadUrl", "url", "audioUrl", "fileUrl", "mp3Url", "link", "file", "audio",
   "downloadLink", "mp3File"]

/-- The probing loop of lines 237-241: first field that is present
with a truthy (non-empty) value. -/
def probeFields (item : List (String × String)) : List String → Option String
  | [] => none
  | f :: rest =>
    match lookupAssoc f item with
    | some v => if v = "" then probeFields item rest else some v
    | none => probeFields item rest

/-- Outcome of the Apify actor call (lines 190-205). -/
inductive ApifyOutcome
  | timeout
  | raised
  | response (status_code : Nat) (items : Option (List (List (String × String))))
  deriving DecidableEq

/-- Outcome of the streamed asset download (lines 254-266); status
200 means the raw file is fully written. -/
inductive AssetOutcome
  | timeout
  | raised
  | response (status_code : Nat)
  deriving DecidableEq

/-- Outcome of the `subprocess.run` ffmpeg invocation (lines 282-295):
it either returns with an exit code, raises `TimeoutExpired` after
60 seconds, or raises for another reason (e.g. missing binary). -/
inductive FfmpegOutcome
  | completed (returncode : Int)
  | timedOut
  | raised
  deriving DecidableEq

/-- The environment of one `download_audio` invocation. -/
structure DlEnv where
  apify : ApifyOutcome
  asset : AssetOutcome
  ffmpeg : FfmpegOutcome
  mp3Exists : Bool
  deriving DecidableEq

/-- Observable outcome of `download_audio`: the returned path (or
`None`), whether the raw file was ever written, and whether it is
still on disk when the function returns. -/
structure DlResult where
  result : Option String
  rawWritten : Bool
  rawOnDisk : Bool
  deriving DecidableEq

/-- `download_audio`.  The raw file is removed at lines 297-300 only
after `subprocess.run` returns; if the ffmpeg call raises, control
jumps to the generic handler at line 319 and the raw file stays on
disk. -/
def download_audio (video_id : String) (env : DlEnv) : DlResult :=
  let mp3_path := "beatlink_" ++ video_id ++ ".mp3"
  match env.apify with
  | .timeout => ⟨none, false, false⟩
  | .raised => ⟨none, false, false⟩
  | .response status items =>
    if status ≠ 200 ∧ status ≠ 201 then ⟨none, false, false⟩
    else
      match items with
      | none => ⟨none, false, false⟩
      | some results =>
        if results.isEmpty then ⟨none, false, false⟩
        else
          match probeFields (results.headD []) possible_fields with
          | none => ⟨none, false, false⟩
          | some _dlUrl =>
            match env.asset with
            | .timeout => ⟨none, false, false⟩
            | .raised => ⟨none, false, false⟩
            | .response st2 =>
              if st2 ≠ 200 then ⟨none, false, false⟩
              else
                match env.ffmpeg with
                | .timedOut => ⟨none, true, true⟩
                | .raised => ⟨none, true, true⟩
                | .completed rc =>
                  if rc ≠ 0 then ⟨none, true, false⟩
                  else if env.mp3Exists then ⟨some mp3_path, true, false⟩
                  else ⟨none, true, false⟩

/-- A `DlEnv` in which acquisition succeeds up to trimming and the
ffmpeg subprocess exceeds its 60-second timeout. -/
def dlEnvTrimTimeout : DlEnv :=
  { apify := .response 200 (some [[("downloadUrl", "https://x")]])
    asset := .response 200
    ffmpeg := .timedOut
    mp3Exists := true }

/-! ## `app.scan_beat` (app.py lines 36-141) -/

/-- Result of `youtube_service.get_video_info`. -/
inductive VideoInfoRes
  | failure (error message : String)
  | ok (title author : String) (views : Int) (thumbnail : String)
  deriving DecidableEq

/-- The `uploaded_beat` object of a successful scan response. -/
structure UploadedBeat where
  title : String
  author : String
  youtube_url : String
  views_number : Int
  thumbnail : String
  deriving DecidableEq

/-- A `/scan` response: an error payload with its HTTP status, or a
success payload with the matched songs and their count. -/
inductive ScanResponse
  | err (httpStatus : Nat) (error message : String)
  | ok (uploaded_beat : UploadedBeat) (matched_songs : List EnrichedTrack) (results_count : Nat)
  deriving DecidableEq

/-- The upstream services a scan may call. -/
inductive UpstreamCall
  | metadata
  | audioDownload
  | fingerprintScan
  | catalog
  deriving DecidableEq

/-- Oracles for the collaborator services of one scan. -/
structure ScanEnv where
  videoInfo : String → VideoInfoRes
  download : String → Option String
  identify : String → List SongMatch
  tokenSt : TokenState
  now : Int
  tokenNet : TokenNet
  trackNet : List Char → TrackNet

/-- `scan_beat`.  The request body is `none` when `request.get_json()`
yields nothing; Python's `not data or 'youtube_url' not in data` is
the empty-dictionary or missing-key test.  The second component
records the upstream services invoked, in order. -/
def scan_beat (env : ScanEnv) (body : Option (List (String × String))) :
    ScanResponse × List UpstreamCall :=
  match body with
  | none => (.err 400 "missing_url" "youtube_url is required in request body", [])
  | some data =>
    if data.isEmpty then (.err 400 "missing_url" "youtube_url is required in request body", [])
    else
      match lookupAssoc "youtube_url" data with
      | none => (.err 400 "missing_url" "youtube_url is required in request body", [])
      | some youtube_url =>
        match env.videoInfo youtube_url with
        | .failure e msg => (.err 400 e msg, [.metadata])
        | .ok title author views thumbnail =>
          match env.download youtube_url with
          | none =>
            (.err 500 "download_failed" "Failed to download audio from YouTube",
             [.metadata, .audioDownload])
          | some audio_path =>
            if audio_path = "" then
              (.err 500 "download_failed" "Failed to download audio from YouTube",
               [.metadata, .audioDownload])
            else
              let ms := env.identify audio_path
              if ms.isEmpty then
                (.ok ⟨title, author, youtube_url, views, thumbnail⟩ [] 0,
                 [.metadata, .audioDownload, .fingerprintScan])
              else
                let enriched :=
                  (enrich_tracks env.tokenNet env.trackNet env.now env.tokenSt ms).1
                (.ok ⟨title, author, youtube_url, views, thumbnail⟩ enriched enriched.length,
                 [.metadata, .audioDownload, .fingerprintScan, .catalog])

/-- A concrete scan environment used to instantiate theorems. -/
def scanEnv0 : ScanEnv :=
  { videoInfo := fun _ => .ok "t" "a" 1 "th"
    download := fun _ => some "p"
    identify := fun _ => []
    tokenSt := ⟨none, 0⟩
    now := 0
    tokenNet := .raised
    trackNet := fun _ => .raised }

/-! ## Helper lemmas -/

theorem isPrefixOf_append_self (p l : List Char) : p.isPrefixOf (p ++ l) = true := by
  induction p with
  | nil => simp [List.isPrefixOf]
  | cons c cs ih => simp [List.isPrefixOf, ih]

theorem mem_of_isPrefixOf {p l : List Char} (h : p.isPrefixOf l = true) {c : Char}
    (hc : c ∈ p) : c ∈ l := by
  rw [ List.isPrefixOf_iff_prefix] at h
  exact h.subset hc

theorem takeId11_of_id (l : List Char) (hlen : l.length = 11)
    (hall : l.all isIdChar = true) : takeId11 l = some l := by
  unfold takeId11
  rw [List.take_of_length_le (by omega)]
  simp [hall, hlen]

theorem searchP1_none_of_id (l : List Char) (hall : ∀ c ∈ l, isIdChar c = true) :
    searchP1 l = none := by
  induction l with
  | nil => rfl
  | cons c rest ih =>
    have hc : isIdChar c = true := hall c (by simp)
    have hrest : ∀ d ∈ rest, isIdChar d = true := fun d hd => hall d (by simp [hd])
    have h1 : (c == 'v' && rest.head? == some '=') = false := by
      cases rest with
      | nil => simp
      | cons d tl =>
        have hd : isIdChar d = true := hrest d (by simp)
        have hne : d ≠ '=' := by
          intro he
          rw [he] at hd
          exact absurd hd (by decide)
        simp [hne]
    have h2 : (c == '/') = false := by
      have hne : c ≠ '/' := by
        intro he
        rw [he] at hc
        exact absurd hc (by decide)
      simp [hne]
    rw [searchP1, h1, h2]
    simp [ih hrest]

theorem searchP2_none_of_id (l : List Char) (hall : ∀ c ∈ l, isIdChar c = true) :
    searchP2 l = none := by
  induction l with
  | nil => rfl
  | cons c rest ih =>
    have hrest : ∀ d ∈ rest, isIdChar d = true := fun d hd => hall d (by simp [hd])
    have h1 : shortLinkPat.isPrefixOf (c :: rest) = false := by
      by_contra hcon
      have htrue : shortLinkPat.isPrefixOf (c :: rest) = true := by
        revert hcon
        cases shortLinkPat.isPrefixOf (c :: rest) <;> simp
      have hdot : '.' ∈ c :: rest := mem_of_isPrefixOf htrue (by decide)
      have : isIdChar '.' = true := hall '.' hdot
      exact absurd this (by decide)
    rw [searchP2, h1]
    simp [ih hrest]

theorem splitOnColon_no_colon (l : List Char) (h : ':' ∉ l) : splitOnColon l = [l] := by
  induction l with
  | nil => rfl
  | cons c rest ih =>
    have hc : c ≠ ':' := by
      intro he
      exact h (by simp [he])
    have hrest : ':' ∉ rest := fun hm => h (by simp [hm])
    rw [splitOnColon, if_neg hc, ih hrest]

/-! ## Claim theorems -/

/-- C7: for every 11-character id over the alphabet `[0-9A-Za-z_-]`,
the extractor returns that id on the canonical `watch?v=ID` URL, on
the `youtu.be/ID` short link, and on the bare id itself. -/
theorem extract_video_id_shapes (idL : List Char) (hlen : idL.length = 11)
    (hall : idL.all isIdChar = true) :
    extract_video_id (watchMarker ++ idL) = some idL ∧
    extract_video_id (shortMarker ++ idL) = some idL ∧
    extract_video_id idL = some idL := by
  have h11 : takeId11 idL = some idL := takeId11_of_id idL hlen hall
  have hallm : ∀ c ∈ idL, isIdChar c = true := fun c hc => by
    exact List.all_eq_true.mp hall c hc
  refine ⟨?_, ?_, ?_⟩
  · have hs1 : searchP1 (watchMarker ++ idL) = some idL := by
      simp +decide [watchMarker, searchP1]
      rw [h11]
      simp +decide [takeId11]
    simp [extract_video_id, hs1]
  · have hs1 : searchP1 (shortMarker ++ idL) = some idL := by
      simp +decide [shortMarker, searchP1]
      rw [h11]
      simp +decide [takeId11]
    simp [extract_video_id, hs1]
  · rw [extract_video_id, searchP1_none_of_id idL hallm, searchP2_none_of_id idL hallm]
    simp [matchP3, hall, hlen]

/-- C7 witness at the concrete id `abcdefghijk`. -/
theorem extract_video_id_shapes_witness :
    (['a', 'b', 'c', 'd', 'e', 'f', 'g', 'h', 'i', 'j', 'k'] : List Char).length = 11 ∧
    extract_video_id (watchMarker ++ ['a', 'b', 'c', 'd', 'e', 'f', 'g', 'h', 'i', 'j', 'k']) =
      some ['a', 'b', 'c', 'd', 'e', 'f', 'g', 'h', 'i', 'j', 'k'] ∧
    extract_video_id (shortMarker ++ ['a', 'b', 'c', 'd', 'e', 'f', 'g', 'h', 'i', 'j', 'k']) =
      some ['a', 'b', 'c', 'd', 'e', 'f', 'g', 'h', 'i', 'j', 'k'] ∧
    extract_video_id ['a', 'b', 'c', 'd', 'e', 'f', 'g', 'h', 'i', 'j', 'k'] =
      some ['a', 'b', 'c', 'd', 'e', 'f', 'g', 'h', 'i', 'j', 'k'] :=
  ⟨by decide, extract_video_id_shapes _ (by decide) (by decide)⟩

theorem collectMatches_score (l : List AcrMusic) (s : SongMatch)
    (hs : s ∈ collectMatches l) : 85 ≤ s.score := by
  induction l with
  | nil => simp [collectMatches] at hs
  | cons m rest ih =>
    rw [collectMatches] at hs
    by_cases h : scoreOf m < 85
    · rw [if_pos h] at hs
      exact ih hs
    · rw [if_neg h] at hs
      rcases List.mem_cons.mp hs with he | htl
      · rw [he]
        show 85 ≤ m.score.getD 0
        simp only [scoreOf] at h
        omega
      · exact ih htl

theorem identify_audio_response (code : Int) (body : Option AcrBody) :
    identify_audio true (AcrNet.response code body) =
      if code ≠ 200 then []
      else
        match body with
        | none => []
        | some result =>
          if statusCodeOf result ≠ 0 then []
          else if (result.music.getD []).isEmpty then []
          else collectMatches (result.music.getD []) := rfl

theorem identify_audio_response_some (code : Int) (result : AcrBody) :
    identify_audio true (AcrNet.response code (some result)) =
      if code ≠ 200 then []
      else if statusCodeOf result ≠ 0 then []
      else if (result.music.getD []).isEmpty then []
      else collectMatches (result.music.getD []) := rfl

/-- C1: the matcher keeps exactly the candidates with confidence at
least 85 (the boundary included), in order, and therefore every match
`identify_audio` ever returns has score at least 85. -/
theorem identify_filter_threshold :
    (∀ (fe : Bool) (net : AcrNet) (s : SongMatch), s ∈ identify_audio fe net → 85 ≤ s.score) ∧
    (∀ l : List AcrMusic,
      collectMatches l = (l.filter (fun m => decide (85 ≤ scoreOf m))).map formatMatch) := by
  constructor
  · intro fe net s hs
    cases fe with
    | false => simp [identify_audio] at hs
    | true =>
      cases net with
      | timeout => simp [identify_audio] at hs
      | raised => simp [identify_audio] at hs
      | response code body =>
        cases body with
        | none =>
          rw [identify_audio_response] at hs
          by_cases hc : code ≠ 200 <;> simp [hc] at hs
        | some result =>
          rw [identify_audio_response_some] at hs
          by_cases hc : code ≠ 200
          · rw [if_pos hc] at hs
            simp at hs
          · rw [if_neg hc] at hs
            by_cases hst : statusCodeOf result ≠ 0
            · rw [if_pos hst] at hs
              simp at hs
            · rw [if_neg hst] at hs
              by_cases hmt : (result.music.getD []).isEmpty
              · simp [hmt] at hs
              · simp only [hmt, if_false, Bool.false_eq_true, if_neg] at hs
                exact collectMatches_score _ _ hs
  · intro l
    induction l with
    | nil => rfl
    | cons m rest ih =>
      by_cases h : scoreOf m < 85
      · have hp : (decide (85 ≤ scoreOf m)) = false := by
          simp
          omega
        rw [collectMatches, if_pos h, ih, List.filter_cons, hp]
        simp
      · have hp : (decide (85 ≤ scoreOf m)) = true := by
          simp
          omega
        rw [collectMatches, if_neg h, ih, List.filter_cons, hp]
        simp

/-- C1 witness: a candidate at the inclusive boundary score 85 is
returned and satisfies the bound. -/
theorem identify_filter_threshold_witness :
    (⟨"T", "A", [], 85⟩ : SongMatch) ∈
      identify_audio true
        (AcrNet.response 200
          (some ⟨some ⟨some 0⟩, some [⟨some 85, some "T", some [some "A"], none⟩]⟩)) ∧
    85 ≤ (⟨"T", "A", [], 85⟩ : SongMatch).score := by
  have hm : (⟨"T", "A", [], 85⟩ : SongMatch) ∈
      identify_audio true
        (AcrNet.response 200
          (some ⟨some ⟨some 0⟩, some [⟨some 85, some "T", some [some "A"], none⟩]⟩)) := by
    decide
  exact ⟨hm, identify_filter_threshold.1 true _ _ hm⟩

/-- C4: `identify_audio` yields the empty list on every failure path
(missing file, timeout, raised exception, non-200 transport status,
malformed payload, nonzero service status code), and a nonempty
result forces a 200 transport response whose service status code is
0. -/
theorem identify_error_paths :
    (∀ net, identify_audio false net = []) ∧
    identify_audio true AcrNet.timeout = [] ∧
    identify_audio true AcrNet.raised = [] ∧
    (∀ code body, code ≠ 200 → identify_audio true (AcrNet.response code body) = []) ∧
    (∀ code, identify_audio true (AcrNet.response code none) = []) ∧
    (∀ body, statusCodeOf body ≠ 0 →
      identify_audio true (AcrNet.response 200 (some body)) = []) ∧
    (∀ fe net, identify_audio fe net ≠ [] →
      ∃ body, net = AcrNet.response 200 (some body) ∧ statusCodeOf body = 0) := by
  refine ⟨fun net => rfl, rfl, rfl, ?_, ?_, ?_, ?_⟩
  · intro code body hc
    rw [identify_audio_response]
    simp [hc]
  · intro code
    rw [identify_audio_response]
    by_cases hc : code ≠ 200 <;> simp [hc]
  · intro body hst
    rw [identify_audio_response]
    simp [hst]
  · intro fe net hne
    cases fe with
    | false => exact absurd rfl hne
    | true =>
      cases net with
      | timeout => exact absurd rfl hne
      | raised => exact absurd rfl hne
      | response code body =>
        cases body with
        | none =>
          rw [identify_audio_response] at hne
          by_cases hc : code ≠ 200 <;> simp [hc] at hne
        | some result =>
          rw [identify_audio_response_some] at hne
          by_cases hc : code ≠ 200
          · rw [if_pos hc] at hne
            simp at hne
          · rw [if_neg hc] at hne
            push_neg at hc
            subst hc
            by_cases hst : statusCodeOf result ≠ 0
            · rw [if_pos hst] at hne
              simp at hne
            · push_neg at hst
              exact ⟨result, rfl, hst⟩

/-- C4 witness: a 404 transport response and a status-1001 (no match)
service response both yield the empty list. -/
theorem identify_error_paths_witness :
    identify_audio true (AcrNet.response 404 none) = [] ∧
    identify_audio true (AcrNet.response 200 (some ⟨some ⟨some 1001⟩, none⟩)) = [] :=
  ⟨identify_error_paths.2.2.2.1 404 none (by decide),
   identify_error_paths.2.2.2.2.2.1 ⟨some ⟨some 1001⟩, none⟩ (by decide)⟩

/-- C10 counterexample: for the nonempty identifier `a:b` the
round-trip fails: `extractTrackId (format_spotify_id "a:b")` is `"a"`,
not `"a:b"`, because `split(':')[2]` only recovers identifiers that
contain no colon. -/
theorem spotify_id_roundtrip_cex :
    ('a' :: ':' :: 'b' :: []) ≠ ([] : List Char) ∧
    extractTrackId (format_spotify_id ('a' :: ':' :: 'b' :: [])) ≠ 'a' :: ':' :: 'b' :: [] := by
  decide

/-- C10 amended: for every nonempty identifier containing no colon,
formatting as `spotify:track:` + id and extracting via
`split(':')[2]` recovers the id; an identifier that does not start
with the marker is returned unchanged. -/
theorem spotify_id_roundtrip :
    (∀ sid : List Char, sid ≠ [] → ':' ∉ sid →
      extractTrackId (format_spotify_id sid) = sid) ∧
    (∀ sid : List Char, spotifyTrackMarker.isPrefixOf sid = false →
      extractTrackId sid = sid) := by
  constructor
  · intro sid h hc
    have hs : splitOnColon sid = [sid] := splitOnColon_no_colon sid hc
    have hpre : spotifyTrackMarker.isPrefixOf (spotifyTrackMarker ++ sid) = true :=
      isPrefixOf_append_self _ _
    rw [format_spotify_id, if_neg h, extractTrackId, if_pos hpre]
    simp +decide [spotifyTrackMarker, splitOnColon, hs] at hpre ⊢
  · intro sid hpre
    rw [extractTrackId, if_neg (by simp [hpre])]

/-- C10 witness: the colon-free id `abc` round-trips, and the
marker-free id `q` passes through unchanged. -/
theorem spotify_id_roundtrip_witness :
    extractTrackId (format_spotify_id ['a', 'b', 'c']) = ['a', 'b', 'c'] ∧
    extractTrackId ['q'] = ['q'] :=
  ⟨spotify_id_roundtrip.1 ['a', 'b', 'c'] (by decide) (by decide),
   spotify_id_roundtrip.2 ['q'] (by decide)⟩

/-- C5: after a successful refresh at `now1` the cache stores the
token with absolute expiry `now1 + expires_in - 60`; any second call
strictly before that instant returns the identical token without a
network exchange and leaves the state unchanged, while a call at or
after that instant performs exactly one network exchange. -/
theorem token_cache_reuse (st : TokenState) (now1 now2 : Int) (b : TokenBody) (t : String)
    (ht : b.access_token = some t) (htne : t ≠ "")
    (hmiss : (truthyTok st.token && decide (now1 < st.token_expires_at)) = false) :
    get_token st now1 (TokenNet.response 200 (some b)) =
      (some t, ⟨some t, now1 + b.expires_in.getD 3600 - 60⟩, true) ∧
    (∀ net2, now2 < now1 + b.expires_in.getD 3600 - 60 →
      get_token ⟨some t, now1 + b.expires_in.getD 3600 - 60⟩ now2 net2 =
        (some t, ⟨some t, now1 + b.expires_in.getD 3600 - 60⟩, false)) ∧
    (∀ net2, now1 + b.expires_in.getD 3600 - 60 ≤ now2 →
      (get_token ⟨some t, now1 + b.expires_in.getD 3600 - 60⟩ now2 net2).2.2 = true) := by
  refine ⟨?_, ?_, ?_⟩
  · rw [get_token.eq_def, if_neg (by simp [hmiss])]
    simp [ht]
  · intro net2 hlt
    have hcond : (truthyTok (some t) &&
        decide (now2 < now1 + b.expires_in.getD 3600 - 60)) = true := by
      simp [truthyTok, htne, hlt]
    rw [get_token.eq_def]
    simp only [hcond, if_true, if_pos]
  · intro net2 hge
    have hcond : (truthyTok (some t) &&
        decide (now2 < now1 + b.expires_in.getD 3600 - 60)) = false := by
      simp [truthyTok]
      omega
    rw [get_token.eq_def, if_neg (by simp [hcond])]
    cases net2 with
    | raised => rfl
    | response code body =>
      by_cases hc : code ≠ 200
      · simp [hc]
      · cases body with
        | none => simp [hc]
        | some d => simp [hc]

/-- C5 witness: refresh at time 0 with `expires_in` 7200 stores expiry
7140; a second call at time 100 returns the cached token with no
network exchange. -/
theorem token_cache_reuse_witness :
    get_token ⟨some "tok", 7140⟩ 100 TokenNet.raised =
      (some "tok", ⟨some "tok", 7140⟩, false) := by
  have h := (token_cache_reuse ⟨none, 0⟩ 0 100 ⟨some "tok", some 7200⟩ "tok" rfl
    (by decide) (by decide)).2.1 TokenNet.raised (by decide)
  simpa using h

/-- C6: a failing refresh attempt (raised network exception or
non-2xx auth response) returns `none` and leaves both cache slots
unchanged. -/
theorem token_refresh_failure_state (st : TokenState) (now : Int) (net : TokenNet)
    (hmiss : (truthyTok st.token && decide (now < st.token_expires_at)) = false)
    (hfail : net = TokenNet.raised ∨
      ∃ code body, net = TokenNet.response code body ∧ ¬(200 ≤ code ∧ code < 300)) :
    get_token st now net = (none, st, true) := by
  rw [get_token.eq_def, if_neg (by simp [hmiss])]
  rcases hfail with h | ⟨code, body, h, hcode⟩
  · rw [h]
  · rw [h]
    have hne : code ≠ 200 := by
      intro he
      exact hcode ⟨by omega, by omega⟩
    simp [hne]

/-- C6 witness: a 500 auth response leaves the stale cache entry
`("old", 50)` untouched and returns `none`. -/
theorem token_refresh_failure_state_witness :
    get_token ⟨some "old", 50⟩ 100 (TokenNet.response 500 none) =
      (none, ⟨some "old", 50⟩, true) :=
  token_refresh_failure_state ⟨some "old", 50⟩ 100 (TokenNet.response 500 none)
    (by decide) (Or.inr ⟨500, none, rfl, by omega⟩)

theorem scan_shape (env : ScanEnv) (body : Option (List (String × String))) :
    (∃ s e m, (scan_beat env body).1 = ScanResponse.err s e m) ∨
    (∃ beat l, (scan_beat env body).1 = ScanResponse.ok beat l l.length) := by
  unfold scan_beat
  dsimp only
  repeat' split
  all_goals first
    | exact Or.inl ⟨_, _, _, rfl⟩
    | exact Or.inr ⟨_, _, rfl⟩

/-- C2: whenever `scan_beat` produces a success response, the
`results_count` field equals the length of the `matched_songs` list,
in both the zero-match report and the enriched report. -/
theorem scan_results_count_invariant (env : ScanEnv) (body : Option (List (String × String)))
    (beat : UploadedBeat) (songs : List EnrichedTrack) (count : Nat)
    (h : (scan_beat env body).1 = ScanResponse.ok beat songs count) :
    count = songs.length := by
  rcases scan_shape env body with ⟨s, e, m, hh⟩ | ⟨beat2, l, hh⟩
  · rw [hh] at h
    cases h
  · rw [hh] at h
    injection h with h1 h2 h3
    subst h2
    exact h3.symm

/-- C2 witness: a scan of a present URL through `scanEnv0` yields the
zero-match success report, for which the invariant gives
`0 = [].length`. -/
theorem scan_results_count_invariant_witness :
    (scan_beat scanEnv0 (some [("youtube_url", "u")])).1 =
      ScanResponse.ok ⟨"t", "a", "u", 1, "th"⟩ [] 0 ∧
    (0 : Nat) = ([] : List EnrichedTrack).length :=
  ⟨by decide,
   scan_results_count_invariant scanEnv0 (some [("youtube_url", "u")])
     ⟨"t", "a", "u", 1, "th"⟩ [] 0 (by decide)⟩

/-- C9: a request with no JSON body, or whose body lacks the
`youtube_url` key, yields the 400 `missing_url` error response and no
upstream service is called. -/
theorem scan_missing_url_no_calls (env : ScanEnv) :
    scan_beat env none =
      (ScanResponse.err 400 "missing_url" "youtube_url is required in request body", []) ∧
    (∀ data : List (String × String), lookupAssoc "youtube_url" data = none →
      scan_beat env (some data) =
        (ScanResponse.err 400 "missing_url" "youtube_url is required in request body", [])) := by
  constructor
  · rfl
  · intro data h
    cases data with
    | nil => rfl
    | cons p rest =>
      unfold scan_beat
      simp [h]

/-- C9 witness: a body holding only an unrelated key produces the
`missing_url` error and an empty upstream-call trace. -/
theorem scan_missing_url_no_calls_witness :
    lookupAssoc "youtube_url" [("other", "x")] = none ∧
    scan_beat scanEnv0 (some [("other", "x")]) =
      (ScanResponse.err 400 "missing_url" "youtube_url is required in request body", []) :=
  ⟨by decide, (scan_missing_url_no_calls scanEnv0).2 [("other", "x")] (by decide)⟩

/-- C3 counterexample: when the ffmpeg trim subprocess exceeds its
60-second timeout, `subprocess.run` raises, control reaches the
generic exception handler, and `download_audio` returns `None` with
the raw file still on disk — so the raw file is not deleted on every
trim failure. -/
theorem download_audio_raw_leak :
    (download_audio "abc" dlEnvTrimTimeout).rawWritten = true ∧
    (download_audio "abc" dlEnvTrimTimeout).rawOnDisk = true ∧
    (download_audio "abc" dlEnvTrimTimeout).result = none := by
  decide

/-- C3 amended: the raw file is deleted whenever the trimming
subprocess returns (with any exit code, success or failure), and a
raw file that was never written is never on disk at return; but if
the trim invocation itself raises (60-second timeout or launch
failure) the raw file is left on disk. -/
theorem download_audio_raw_cleanup (video_id : String) (env : DlEnv) :
    ((download_audio video_id env).rawWritten = false →
      (download_audio video_id env).rawOnDisk = false) ∧
    (∀ rc, env.ffmpeg = FfmpegOutcome.completed rc →
      (download_audio video_id env).rawOnDisk = false) := by
  constructor
  · unfold download_audio
    dsimp only
    repeat' split
    all_goals simp
  · intro rc hrc
    unfold download_audio
    dsimp only
    repeat' split
    all_goals simp_all

/-- C3 amended witness: a trim that completes with nonzero exit code
still ends with the raw file removed. -/
theorem download_audio_raw_cleanup_witness :
    (download_audio "abc"
      ⟨ApifyOutcome.response 200 (some [[("downloadUrl", "https://x")]]),
       AssetOutcome.response 200, FfmpegOutcome.completed 1, true⟩).rawOnDisk = false :=
  (download_audio_raw_cleanup "abc"
    ⟨ApifyOutcome.response 200 (some [[("downloadUrl", "https://x")]]),
     AssetOutcome.response 200, FfmpegOutcome.completed 1, true⟩).2 1 rfl

theorem gtd_catalog_fail (st : TokenState) (now : Int) (tnet : TokenNet)
    (cnet : List Char → TrackNet) (sid : List Char)
    (h : catalogFails (cnet (extractTrackId sid))) :
    (get_track_details st now tnet cnet sid).1 = none := by
  unfold get_track_details
  dsimp only
  split
  · rfl
  · cases hc : cnet (extractTrackId sid) with
    | raised => simp [hc]
    | response code body =>
      rw [hc] at h
      simp only [catalogFails] at h
      simp [hc, h]

theorem enrich_tracks_cons (tnet : TokenNet) (cnet : List Char → TrackNet) (now : Int)
    (st : TokenState) (m : SongMatch) (rest : List SongMatch) :
    enrich_tracks tnet cnet now st (m :: rest) =
      if m.spotify_id = [] then
        (⟨m.title, m.artists, "", "", "", "", m.score⟩ ::
          (enrich_tracks tnet cnet now st rest).1,
         (enrich_tracks tnet cnet now st rest).2)
      else
        (⟨m.title, m.artists,
          ((get_track_details st now tnet cnet m.spotify_id).1.getD ⟨"", "", "", ""⟩).spotify_url,
          ((get_track_details st now tnet cnet m.spotify_id).1.getD ⟨"", "", "", ""⟩).cover_url,
          ((get_track_details st now tnet cnet m.spotify_id).1.getD ⟨"", "", "", ""⟩).release_date,
          ((get_track_details st now tnet cnet m.spotify_id).1.getD ⟨"", "", "", ""⟩).label,
          m.score⟩ ::
          (enrich_tracks tnet cnet now
            (get_track_details st now tnet cnet m.spotify_id).2 rest).1,
         (enrich_tracks tnet cnet now
           (get_track_details st now tnet cnet m.spotify_id).2 rest).2) := rfl

theorem enrich_forall (tnet : TokenNet) (cnet : List Char → TrackNet) (now : Int) :
    ∀ (st : TokenState) (ms : List SongMatch),
      List.Forall₂ (fun m e => preservesMatch m e ∧
          (m.spotify_id = [] → emptyCatalog e) ∧
          (catalogFails (cnet (extractTrackId m.spotify_id)) → emptyCatalog e))
        ms (enrich_tracks tnet cnet now st ms).1 := by
  intro st ms
  induction ms generalizing st with
  | nil => exact List.Forall₂.nil
  | cons m rest ih =>
    rw [enrich_tracks_cons]
    by_cases hsid : m.spotify_id = []
    · rw [if_pos hsid]
      dsimp only
      exact List.Forall₂.cons
        ⟨⟨rfl, rfl, rfl⟩, fun _ => ⟨rfl, rfl, rfl, rfl⟩, fun _ => ⟨rfl, rfl, rfl, rfl⟩⟩
        (ih st)
    · rw [if_neg hsid]
      dsimp only
      refine List.Forall₂.cons ⟨⟨rfl, rfl, rfl⟩, fun h => absurd h hsid, fun hf => ?_⟩ (ih _)
      have hnone := gtd_catalog_fail st now tnet cnet m.spotify_id hf
      simp [emptyCatalog, hnone]

/-- C8: enrichment is total (it never raises and the output pairs up
with the input, so the batch is never aborted); every output record
preserves title, artists and score; a match lacking a catalog id, or
one whose catalog call fails (non-200 or raised), yields empty-string
catalog fields; and a falsy token acquisition makes the per-track
lookup return the empty fallback. -/
theorem enrich_tracks_robust (tnet : TokenNet) (cnet : List Char → TrackNet) (now : Int)
    (st : TokenState) (ms : List SongMatch) :
    List.Forall₂ (fun m e => preservesMatch m e ∧
        (m.spotify_id = [] → emptyCatalog e) ∧
        (catalogFails (cnet (extractTrackId m.spotify_id)) → emptyCatalog e))
      ms (enrich_tracks tnet cnet now st ms).1 ∧
    (enrich_tracks tnet cnet now st ms).1.length = ms.length ∧
    (∀ (st2 : TokenState) (cnet2 : List Char → TrackNet) (sid : List Char),
      tokenFalsy (get_token st2 now tnet).1 = true →
      (get_track_details st2 now tnet cnet2 sid).1 = none) := by
  refine ⟨enrich_forall tnet cnet now st ms,
    (List.Forall₂.length_eq (enrich_forall tnet cnet now st ms)).symm, ?_⟩
  intro st2 cnet2 sid htok
  unfold get_track_details
  dsimp only
  simp [htok]

/-- C8 witness: with a raising auth endpoint the token is falsy and
the per-track lookup yields the empty fallback. -/
theorem enrich_tracks_robust_witness :
    (get_track_details ⟨none, 0⟩ 0 TokenNet.raised (fun _ => TrackNet.raised) ['x']).1 =
      none :=
  (enrich_tracks_robust TokenNet.raised (fun _ => TrackNet.raised) 0 ⟨none, 0⟩ []).2.2
    ⟨none, 0⟩ (fun _ => TrackNet.raised) ['x'] (by decide)
